import Mathlib

/-!
Verification of the NASA APOD Explorer server core (`src/index.js` and its
variants) via a shallow embedding in Lean 4.

The embedding covers:
* the in-memory cache (`apodCache`, a JS `Map` keyed by ISO date strings),
* the rate-limit snapshot (`RATE_LIMIT`) and `updateRateLimitFromHeaders`,
* the fetch helper `fetchAPOD` (cache lookup, outbound call, header update,
  double store of the "today" response),
* the error normalizer `handleError` / `getErrorMessage` and the rendered
  message `error.response?.data?.msg || errorMessage`,
* the date validator of the `POST /get-date-picture` handler, including JS
  `new Date(...)` semantics for `YYYY-MM-DD` strings (Invalid Date = NaN),
* the random-date generator of the `GET /random` handler.

JS numbers that are always integral in the program (millisecond timestamps,
day counts, HTTP statuses) are modelled as `Int`; `Math.random()` is modelled
as a rational in `[0, 1)`; `NaN` results of `parseInt` are modelled as `none`.
-/

namespace Apod

/-- apodRecord models the raw APOD JSON record stored in the cache: the fields
the program reads are `date` and `title`; the remaining payload is abstracted
into `rest`. -/
structure ApodRecord where
  date : String
  title : String
  rest : String
deriving DecidableEq, Repr

/-- rateLimitState models the module-level `RATE_LIMIT` object of
`src/index.js`: `limit`, `remaining` and `resetTime`.  A field holds `none`
when the JS value is `NaN` (for `resetTime`, `null`). -/
structure RateLimitState where
  limit : Option Int
  remaining : Option Int
  resetTime : Option Int
deriving DecidableEq, Repr

/-- Initial `RATE_LIMIT` value: `{ limit: 1000, remaining: 1000, resetTime: null }`. -/
def initialRateLimit : RateLimitState := ⟨some 1000, some 1000, none⟩

/-- respHeaders models the response-header fields the program reads:
`headers['x-ratelimit-limit']` and `headers['x-ratelimit-remaining']`
(`none` = header absent = JS `undefined`). -/
structure RespHeaders where
  ratelimitLimitHdr : Option String
  ratelimitRemainingHdr : Option String
deriving DecidableEq, Repr

/-- JS truthiness of a possibly-absent string: `undefined` and `""` are falsy. -/
def strTruthy : Option String → Bool
  | none => false
  | some s => s ≠ ""

/-- parseIntJS models `parseInt(s)` (radix 10, as used on the numeric
rate-limit headers): skip leading spaces, optional sign, then the longest
prefix of decimal digits; no digits means `NaN`, modelled as `none`. -/
def parseIntJS (s : String) : Option Int :=
  let s1 := s.toList.dropWhile (· = ' ')
  let (neg, s2) :=
    match s1 with
    | '-' :: rest => (true, rest)
    | '+' :: rest => (false, rest)
    | l => (false, l)
  let ds := s2.takeWhile Char.isDigit
  if ds.isEmpty then none
  else
    let n : Nat := ds.foldl (fun a c => a * 10 + (c.toNat - 48)) 0
    some (if neg then -(n : Int) else (n : Int))

/-- updateRateLimitFromHeaders mirrors the function of the same name in
`src/index.js`: each snapshot field is assigned `parseInt` of its header only
when that header is truthy. -/
def updateRateLimitFromHeaders (headers : RespHeaders) (rl : RateLimitState) :
    RateLimitState :=
  let rl1 := if strTruthy headers.ratelimitLimitHdr then
      { rl with limit := parseIntJS (headers.ratelimitLimitHdr.getD "") }
    else rl
  if strTruthy headers.ratelimitRemainingHdr then
      { rl1 with remaining := parseIntJS (headers.ratelimitRemainingHdr.getD "") }
  else rl1

/-- cacheGet models `apodCache.get(k)` (and `apodCache.has(k)` via `isSome`)
on the insertion-ordered association list representing the JS `Map`. -/
def cacheGet : List (String × ApodRecord) → String → Option ApodRecord
  | [], _ => none
  | (k0, v0) :: rest, k => if k0 = k then some v0 else cacheGet rest k

/-- cacheSet models `apodCache.set(k, v)`: replace the value at an existing
key in place, otherwise append the new entry (JS `Map` insertion order). -/
def cacheSet : List (String × ApodRecord) → String → ApodRecord →
    List (String × ApodRecord)
  | [], k, v => [(k, v)]
  | (k0, v0) :: rest, k, v =>
      if k0 = k then (k0, v) :: rest else (k0, v0) :: cacheSet rest k v

/-- serverState bundles the two pieces of module-level mutable state that
`fetchAPOD` touches: `apodCache` and `RATE_LIMIT`. -/
structure ServerState where
  cache : List (String × ApodRecord)
  rateLimit : RateLimitState
deriving DecidableEq, Repr

/-- upstreamResponse models a successful `axios.get` result: the headers and
the parsed JSON body. -/
structure UpstreamResponse where
  headers : RespHeaders
  data : ApodRecord
deriving DecidableEq, Repr

/-- errResponse models `error.response` on a failed axios call: the HTTP
`status` and the `msg` field of the JSON error body if any
(`error.response.data.msg`). -/
structure ErrResponse where
  status : Int
  dataMsg : Option String
deriving DecidableEq, Repr

/-- jsError models the axios error object as read by `handleError`:
`error.response` (absent on connection failures), `error.code`
(e.g. `'ECONNABORTED'` on timeout) and `error.message`. -/
structure JsError where
  response : Option ErrResponse
  code : Option String
  message : String
deriving DecidableEq, Repr

/-- One outbound `axios.get` either yields a response or throws an error. -/
inductive UpstreamResult where
  | ok (resp : UpstreamResponse)
  | err (e : JsError)
deriving DecidableEq, Repr

deriving instance DecidableEq for Except

/-- The observable outcome of one `fetchAPOD` invocation: the returned record
or propagated error, the module state afterwards, and whether an outbound
call was issued. -/
structure FetchOutcome where
  result : Except JsError ApodRecord
  state : ServerState
  madeCall : Bool
deriving DecidableEq, Repr

/-- effectiveKey models `const dateKey = date || new Date().toISOString().split('T')[0]`:
the argument when truthy, else the locally computed today string. -/
def effectiveKey (date : Option String) (todayStr : String) : String :=
  match date with
  | some s => if s = "" then todayStr else s
  | none => todayStr

/-- fetchAPOD models the helper of the same name in `src/index.js`.  The
outbound world is passed in as `upstream` (what the awaited `axios.get` would
produce on this invocation) and the locally computed today string as
`todayStr`; the JS function reads and mutates `apodCache` / `RATE_LIMIT`,
modelled by explicit state passing. -/
def fetchAPOD (date : Option String) (todayStr : String)
    (upstream : UpstreamResult) (st : ServerState) : FetchOutcome :=
  let dateKey := effectiveKey date todayStr
  match cacheGet st.cache dateKey with
  | some rec => ⟨Except.ok rec, st, false⟩
  | none =>
    match upstream with
    | UpstreamResult.err e => ⟨Except.error e, st, true⟩
    | UpstreamResult.ok resp =>
      let rl := updateRateLimitFromHeaders resp.headers st.rateLimit
      let c1 := cacheSet st.cache resp.data.date resp.data
      let c2 := if strTruthy date = false ∧ resp.data.date ≠ dateKey then
          cacheSet c1 dateKey resp.data
        else c1
      ⟨Except.ok resp.data, ⟨c2, rl⟩, true⟩

/-- Fixed user message for HTTP 429 in `handleError`. -/
def rateLimitMessage : String :=
  "⚠️ API RATE LIMIT EXCEEDED! Get your FREE personal API key at https://api.nasa.gov/"

/-- Fixed user message for HTTP status 500 and above in `handleError`. -/
def serverErrorMessage : String :=
  "⚠️ NASA Servers are experiencing issues. Please try again later."

/-- Fixed user message for the `ECONNABORTED` timeout code in `handleError`. -/
def timeoutMessage : String :=
  "⚠️ Connection timed out. NASA servers are slow to respond."

/-- statusAtLeast500 models the JS condition `error.response?.status >= 500`:
false when `error.response` is absent (`undefined >= 500` is false). -/
def statusAtLeast500 (error : JsError) : Bool :=
  match error.response with
  | some r => decide (500 ≤ r.status)
  | none => false

/-- getErrorMessage models the classification chain shared by `handleError`
in `src/index.js` and `getErrorMessage` in the API variant: 429, then
status at least 500, then `ECONNABORTED`, else the caller-supplied default
suffixed with a space and the raw `error.message`. -/
def getErrorMessage (error : JsError) (customMessage : String) : String :=
  if error.response.map ErrResponse.status = some 429 then rateLimitMessage
  else if statusAtLeast500 error then serverErrorMessage
  else if error.code = some "ECONNABORTED" then timeoutMessage
  else customMessage ++ " " ++ error.message

/-- jsOrElse models the JS `a || b` fallback on a possibly-absent string:
`b` when `a` is `undefined` or empty, else `a`. -/
def jsOrElse (a : Option String) (b : String) : String :=
  match a with
  | some s => if s = "" then b else s
  | none => b

/-- handleErrorDisplayed models the message `handleError` actually renders:
`error.response?.data?.msg || errorMessage`, where `errorMessage` is the
classified message. -/
def handleErrorDisplayed (error : JsError) (customMessage : String) : String :=
  jsOrElse (error.response.bind ErrResponse.dataMsg)
    (getErrorMessage error customMessage)

/-- Proleptic-Gregorian leap-year test, as used by JS `Date`. -/
def isLeap (y : Int) : Bool := (y % 4 = 0 && y % 100 ≠ 0) || y % 400 = 0

/-- Number of days in month `m` of year `y` (Gregorian), used by the JS
`Date` parser to reject calendar-invalid `YYYY-MM-DD` strings. -/
def daysInMonth (y : Int) (m : Nat) : Nat :=
  if m = 2 then (if isLeap y then 29 else 28)
  else if m = 4 ∨ m = 6 ∨ m = 9 ∨ m = 11 then 30 else 31

/-- Days from the Unix epoch to civil date `y-m-d` (proleptic Gregorian),
written with floor division; this is the day number underlying the JS
millisecond timestamp of `new Date("y-m-d")` (UTC midnight). -/
def daysFromCivil (y : Int) (m : Nat) (d : Nat) : Int :=
  let y2 : Int := if m ≤ 2 then y - 1 else y
  let era : Int := y2 / 400
  let yoe : Int := y2 - era * 400
  let mp : Int := ((m : Int) + 9) % 12
  let doy : Int := (153 * mp + 2) / 5 + (d : Int) - 1
  let doe : Int := yoe * 365 + yoe / 4 - yoe / 100 + doy
  era * 146097 + doe - 719468

/-- Civil date `(y, m, d)` of a day number counted from the Unix epoch, the
inverse of `daysFromCivil`; this is the calendar part of JS
`Date.prototype.toISOString`. -/
def civilFromDays (z0 : Int) : Int × Nat × Nat :=
  let z := z0 + 719468
  let era : Int := z / 146097
  let doe : Int := z - era * 146097
  let yoe : Int := (doe - doe / 1460 + doe / 36524 - doe / 146096) / 365
  let y : Int := yoe + era * 400
  let doy : Int := doe - (365 * yoe + yoe / 4 - yoe / 100)
  let mp : Int := (5 * doy + 2) / 153
  let d : Int := doy - (153 * mp + 2) / 5 + 1
  let m : Int := if mp < 10 then mp + 3 else mp - 9
  ((if m ≤ 2 then y + 1 else y), m.toNat, d.toNat)

/-- Milliseconds in a day. -/
def msPerDay : Int := 86400000

/-- matchesDateFormat models `/^\d{4}-\d{2}-\d{2}$/.test(s)`. -/
def matchesDateFormat (s : String) : Bool :=
  match s.toList with
  | [y1, y2, y3, y4, h1, m1, m2, h2, d1, d2] =>
      y1.isDigit && y2.isDigit && y3.isDigit && y4.isDigit &&
      h1 = '-' && m1.isDigit && m2.isDigit && h2 = '-' &&
      d1.isDigit && d2.isDigit
  | _ => false

/-- Numeric value of a decimal digit character. -/
def digitVal (c : Char) : Nat := c.toNat - 48

/-- parseDateJS models `new Date(s).getTime()` for strings of the shape
accepted by the handler's regex: a date-only ISO form parses to the UTC
midnight timestamp in milliseconds, and a calendar-invalid month or day
yields an Invalid Date, i.e. `NaN`, modelled as `none`. -/
def parseDateJS (s : String) : Option Int :=
  match s.toList with
  | [y1, y2, y3, y4, '-', m1, m2, '-', d1, d2] =>
      if (matchesDateFormat s) then
        let y : Int := (digitVal y1 * 1000 + digitVal y2 * 100 +
                        digitVal y3 * 10 + digitVal y4 : Nat)
        let m : Nat := digitVal m1 * 10 + digitVal m2
        let d : Nat := digitVal d1 * 10 + digitVal d2
        if 1 ≤ m ∧ m ≤ 12 ∧ 1 ≤ d ∧ d ≤ daysInMonth y m then
          some (daysFromCivil y m d * msPerDay)
        else none
      else none
  | _ => none

/-- Millisecond timestamp of `new Date('1995-06-16')`, the first APOD. -/
def minDateMs : Int := daysFromCivil 1995 6 16 * msPerDay

/-- Outcome of the input validation performed by the
`POST /get-date-picture` handler before it calls `fetchAPOD`:
`formatError` renders "Invalid date format. Please use YYYY-MM-DD.",
`rangeError` renders "Date must be between June 16, 1995 and today.",
and `ok` proceeds to the fetch. -/
inductive ValidationResult where
  | formatError
  | rangeError
  | ok
deriving DecidableEq, Repr

/-- validateDate models the validation sequence of the handler at the current
instant `nowMs` (`new Date()`): falsy or regex-failing input is a format
error; then `new Date(selectedDate)` is compared with `new Date('1995-06-16')`
and `new Date()` — when the parse yields Invalid Date both NaN comparisons
are false, so such input passes the range check. -/
def validateDate (s : String) (nowMs : Int) : ValidationResult :=
  if s = "" ∨ matchesDateFormat s = false then ValidationResult.formatError
  else
    match parseDateJS s with
    | some t =>
        if t < minDateMs ∨ nowMs < t then ValidationResult.rangeError
        else ValidationResult.ok
    | none => ValidationResult.ok

/-- Day number of the first APOD, 1995-06-16. -/
def firstApodDays : Int := daysFromCivil 1995 6 16

/-- Zero-padded two-digit rendering of a month or day. -/
def pad2 (n : Nat) : String := if n < 10 then "0" ++ toString n else toString n

/-- Zero-padded four-digit rendering of a year. -/
def pad4 (y : Int) : String :=
  if y < 10 then "000" ++ toString y
  else if y < 100 then "00" ++ toString y
  else if y < 1000 then "0" ++ toString y
  else toString y

/-- ISO `YYYY-MM-DD` rendering of a day number, the calendar prefix of
`toISOString().split('T')[0]`. -/
def isoOfDays (z : Int) : String :=
  let c := civilFromDays z
  pad4 c.1 ++ "-" ++ pad2 c.2.1 ++ "-" ++ pad2 c.2.2

/-- randomDateDays models the day number selected by the `GET /random`
handler: `firstAPOD.getTime() + Math.floor(Math.random() * timeDiff)`
converted to its UTC day, with `Math.random()` modelled as a rational
`q` in `[0, 1)`. -/
def randomDateDays (nowMs : Int) (q : ℚ) : Int :=
  let timeDiff : Int := nowMs - minDateMs
  let randomTime : Int := minDateMs + Int.floor (q * (timeDiff : ℚ))
  randomTime / msPerDay

/-- randomDateString models the `dateString` the `GET /random` handler passes
to `fetchAPOD`: the ISO date of the randomly selected instant. -/
def randomDateString (nowMs : Int) (q : ℚ) : String :=
  isoOfDays (randomDateDays nowMs q)

/-! ## General lemmas about the cache embedding -/

/-- Reading back the key just written returns the written record. -/
theorem cacheGet_cacheSet_self (c : List (String × ApodRecord)) (k : String)
    (v : ApodRecord) : cacheGet (cacheSet c k v) k = some v := by
  induction c with
  | nil => simp [cacheSet, cacheGet]
  | cons p rest ih =>
    obtain ⟨k0, v0⟩ := p
    by_cases h : k0 = k <;> simp [cacheSet, cacheGet, h, ih]

/-- Writing one key leaves every other key unchanged. -/
theorem cacheGet_cacheSet_ne (c : List (String × ApodRecord)) (k k' : String)
    (v : ApodRecord) (h : k' ≠ k) :
    cacheGet (cacheSet c k v) k' = cacheGet c k' := by
  induction c with
  | nil => simp [cacheSet, cacheGet, Ne.symm h]
  | cons p rest ih =>
    obtain ⟨k0, v0⟩ := p
    by_cases h0 : k0 = k
    · subst h0
      simp [cacheSet, cacheGet, Ne.symm h]
    · by_cases h1 : k0 = k'
      · subst h1
        simp [cacheSet, cacheGet, h0, h]
      · simp [cacheSet, cacheGet, h0, h1, ih]

/-- Keys present after a write were present before, or are the written key. -/
theorem mem_keys_cacheSet (c : List (String × ApodRecord)) (k a : String)
    (v : ApodRecord) :
    a ∈ (cacheSet c k v).map Prod.fst → a ∈ c.map Prod.fst ∨ a = k := by
  induction c with
  | nil => simp [cacheSet]
  | cons p rest ih =>
    obtain ⟨k0, v0⟩ := p
    by_cases h : k0 = k
    · subst h
      simp [cacheSet]
      tauto
    · simp only [cacheSet, if_neg h, List.map_cons, List.mem_cons]
      intro hmem
      rcases hmem with h1 | h1
      · exact Or.inl (Or.inl h1)
      · rcases ih h1 with h2 | h2
        · exact Or.inl (Or.inr h2)
        · exact Or.inr h2

/-- A write preserves distinctness of the cache keys (the JS `Map` invariant). -/
theorem cacheSet_nodup (c : List (String × ApodRecord)) (k : String)
    (v : ApodRecord) (h : (c.map Prod.fst).Nodup) :
    ((cacheSet c k v).map Prod.fst).Nodup := by
  induction c with
  | nil => simp [cacheSet]
  | cons p rest ih =>
    obtain ⟨k0, v0⟩ := p
    simp only [List.map_cons, List.nodup_cons] at h
    obtain ⟨hnotin, hrest⟩ := h
    by_cases hk : k0 = k
    · subst hk
      have hset : cacheSet ((k0, v0) :: rest) k0 v = (k0, v) :: rest := by
        simp [cacheSet]
      rw [hset, List.map_cons, List.nodup_cons]
      exact ⟨hnotin, hrest⟩
    · simp only [cacheSet, if_neg hk, List.map_cons, List.nodup_cons]
      refine ⟨?_, ih hrest⟩
      intro hmem
      rcases mem_keys_cacheSet rest k k0 v hmem with h1 | h1
      · exact hnotin h1
      · exact hk h1

/-- A write whose value agrees with whatever the key already held preserves
every existing entry. -/
theorem cacheGet_cacheSet_preserve (c : List (String × ApodRecord))
    (k : String) (v : ApodRecord)
    (hcons : ∀ w, cacheGet c k = some w → w = v) :
    ∀ k' v', cacheGet c k' = some v' → cacheGet (cacheSet c k v) k' = some v' := by
  intro k' v' h
  by_cases hk : k' = k
  · subst hk
    rw [cacheGet_cacheSet_self]
    rw [hcons v' h]
  · rw [cacheGet_cacheSet_ne _ _ _ _ hk]
    exact h

/-- A fetch whose effective key is cached returns the stored record and
leaves the state untouched, whatever the upstream would have answered. -/
theorem fetchAPOD_hit_general (date : Option String) (todayStr : String)
    (u : UpstreamResult) (st : ServerState) (rec : ApodRecord)
    (h : cacheGet st.cache (effectiveKey date todayStr) = some rec) :
    fetchAPOD date todayStr u st = ⟨Except.ok rec, st, false⟩ := by
  unfold fetchAPOD
  simp [h]

/-! ## Claim theorems -/

/-- C1: for every date key already present in the cache, `fetchAPOD` with
that key returns the identical stored record, performs no outbound call, and
leaves the cache and the rate-limit snapshot unchanged (cache hits are pure
reads). -/
theorem cacheHit_returns_stored_without_call (k todayStr : String)
    (u : UpstreamResult) (st : ServerState) (rec : ApodRecord)
    (hk : k ≠ "") (h : cacheGet st.cache k = some rec) :
    fetchAPOD (some k) todayStr u st = ⟨Except.ok rec, st, false⟩ := by
  apply fetchAPOD_hit_general
  simpa [effectiveKey, hk] using h

/-- Witness for C1 at a concrete one-entry cache. -/
theorem cacheHit_witness :
    fetchAPOD (some "2024-01-01") "2026-10-11"
      (UpstreamResult.err ⟨none, none, "network down"⟩)
      ⟨[("2024-01-01", ⟨"2024-01-01", "Title", "rest"⟩)], initialRateLimit⟩ =
    ⟨Except.ok ⟨"2024-01-01", "Title", "rest"⟩,
     ⟨[("2024-01-01", ⟨"2024-01-01", "Title", "rest"⟩)], initialRateLimit⟩,
     false⟩ :=
  cacheHit_returns_stored_without_call "2024-01-01" "2026-10-11"
    (UpstreamResult.err ⟨none, none, "network down"⟩)
    ⟨[("2024-01-01", ⟨"2024-01-01", "Title", "rest"⟩)], initialRateLimit⟩
    ⟨"2024-01-01", "Title", "rest"⟩ (by decide) (by decide)

/-- C2 (amended): any input that does not match the literal pattern of four
digits, dash, two digits, dash, two digits is rejected as a format error
before any fetch.  The original claim also asserted that the calendar-invalid
digit string "2024-13-40" is a format error; it in fact matches the pattern
(see the counterexample), so that part is dropped. -/
theorem nonmatching_input_is_formatError (s : String) (nowMs : Int)
    (h : matchesDateFormat s = false) :
    validateDate s nowMs = ValidationResult.formatError := by
  unfold validateDate
  simp [h]

/-- Witness for C2 at a concrete non-matching input. -/
theorem format_error_witness :
    matchesDateFormat "not-a-date" = false ∧
    validateDate "not-a-date" 1791720000000 = ValidationResult.formatError :=
  ⟨by decide, nonmatching_input_is_formatError "not-a-date" 1791720000000 (by decide)⟩

/-- Counterexample to C2 as stated: "2024-13-40" matches the regex, so the
handler does not reject it as a format error; it even passes the range check
(the Invalid Date NaN comparisons are both false) and proceeds to fetch. -/
theorem format_counterexample :
    matchesDateFormat "2024-13-40" = true ∧
    validateDate "2024-13-40" 1791720000000 ≠ ValidationResult.formatError ∧
    validateDate "2024-13-40" 1791720000000 = ValidationResult.ok := by
  refine ⟨by decide, by decide, by decide⟩

/-- C3 (amended): the classification chain maps HTTP 429 to the fixed
rate-limit message, status at least 500 to the generic try-again message, and
code `ECONNABORTED` with no HTTP response to the timeout message, and that
classified message does not depend on the error body (the statement
quantifies over all errors of each class, in particular over their bodies).
The displayed message, however, is the upstream error body's `msg` field
whenever that field is present and non-empty, for every class; the original
claim that the displayed message never depends on the body is refuted by the
counterexample. -/
theorem classified_messages_fixed (e : JsError) (c : String) :
    (e.response.map ErrResponse.status = some 429 →
       getErrorMessage e c = rateLimitMessage) ∧
    (statusAtLeast500 e = true → getErrorMessage e c = serverErrorMessage) ∧
    (e.response = none → e.code = some "ECONNABORTED" →
       getErrorMessage e c = timeoutMessage) ∧
    (∀ m, e.response.bind ErrResponse.dataMsg = some m → m ≠ "" →
       handleErrorDisplayed e c = m) := by
  refine ⟨?_, ?_, ?_, ?_⟩
  · intro h
    unfold getErrorMessage
    simp [h]
  · intro h
    have h429 : e.response.map ErrResponse.status ≠ some 429 := by
      unfold statusAtLeast500 at h
      match he : e.response with
      | none => rw [he] at h; simp at h
      | some r =>
        rw [he] at h
        simp at h
        simp [he]
        omega
    unfold getErrorMessage
    simp [h429, h]
  · intro hr hc
    unfold getErrorMessage statusAtLeast500
    simp [hr, hc]
  · intro m hm hne
    unfold handleErrorDisplayed jsOrElse
    simp [hm, hne]

/-- Witness for C3 at one concrete error of each class, plus one body
override. -/
theorem classified_messages_witness :
    getErrorMessage ⟨some ⟨429, none⟩, none, "m1"⟩ "D." = rateLimitMessage ∧
    getErrorMessage ⟨some ⟨503, none⟩, none, "m2"⟩ "D." = serverErrorMessage ∧
    getErrorMessage ⟨none, some "ECONNABORTED", "m3"⟩ "D." = timeoutMessage ∧
    handleErrorDisplayed ⟨some ⟨400, some "BAD_REQUEST"⟩, none, "m4"⟩ "D." =
      "BAD_REQUEST" :=
  ⟨(classified_messages_fixed ⟨some ⟨429, none⟩, none, "m1"⟩ "D.").1 (by decide),
   (classified_messages_fixed ⟨some ⟨503, none⟩, none, "m2"⟩ "D.").2.1 (by decide),
   (classified_messages_fixed ⟨none, some "ECONNABORTED", "m3"⟩ "D.").2.2.1 rfl rfl,
   (classified_messages_fixed ⟨some ⟨400, some "BAD_REQUEST"⟩, none, "m4"⟩ "D.").2.2.2
     "BAD_REQUEST" (by decide) (by decide)⟩

/-- Counterexample to C3 as stated: a 429 response whose body carries a `msg`
field is displayed as that body message, not as the fixed rate-limit message,
so the displayed message of the 429 class does depend on the error body. -/
theorem displayed_429_counterexample :
    handleErrorDisplayed
      ⟨some ⟨429, some "OVER_RATE_LIMIT"⟩, none, "Request failed with status code 429"⟩
      "Failed to fetch picture." = "OVER_RATE_LIMIT" ∧
    "OVER_RATE_LIMIT" ≠ rateLimitMessage := by
  refine ⟨by decide, by decide⟩

/-- C4: when `fetchAPOD` is called with the date omitted (the "today" case)
and the upstream response reports a date different from the locally computed
today string, a cache miss fetch stores the response both under the
provider-reported date and under the locally computed key, so a subsequent
fetch for the locally computed key is a cache hit returning the same record
without an outbound call. -/
theorem today_skew_double_store (todayStr : String) (resp : UpstreamResponse)
    (st : ServerState) (u : UpstreamResult)
    (hmiss : cacheGet st.cache todayStr = none)
    (hne : resp.data.date ≠ todayStr) :
    (fetchAPOD none todayStr (UpstreamResult.ok resp) st).result =
      Except.ok resp.data ∧
    cacheGet (fetchAPOD none todayStr (UpstreamResult.ok resp) st).state.cache
      todayStr = some resp.data ∧
    cacheGet (fetchAPOD none todayStr (UpstreamResult.ok resp) st).state.cache
      resp.data.date = some resp.data ∧
    fetchAPOD (some todayStr) todayStr u
        (fetchAPOD none todayStr (UpstreamResult.ok resp) st).state =
      ⟨Except.ok resp.data,
       (fetchAPOD none todayStr (UpstreamResult.ok resp) st).state, false⟩ := by
  have hkey : effectiveKey none todayStr = todayStr := rfl
  have hout : fetchAPOD none todayStr (UpstreamResult.ok resp) st =
      ⟨Except.ok resp.data,
       ⟨cacheSet (cacheSet st.cache resp.data.date resp.data) todayStr resp.data,
        updateRateLimitFromHeaders resp.headers st.rateLimit⟩, true⟩ := by
    unfold fetchAPOD effectiveKey
    simp [hmiss, strTruthy, hne]
  rw [hout]
  refine ⟨rfl, ?_, ?_, ?_⟩
  · exact cacheGet_cacheSet_self _ _ _
  · rw [cacheGet_cacheSet_ne _ _ _ _ hne]
    exact cacheGet_cacheSet_self _ _ _
  · apply fetchAPOD_hit_general
    have : effectiveKey (some todayStr) todayStr = todayStr := by
      by_cases h : todayStr = "" <;> simp [effectiveKey, h]
    rw [this]
    exact cacheGet_cacheSet_self _ _ _

/-- Witness for C4: the provider reports 2026-10-10 while the local today
string is 2026-10-11; both keys end up cached and the follow-up fetch for the
local key hits. -/
theorem today_skew_witness :
    (fetchAPOD none "2026-10-11"
        (UpstreamResult.ok ⟨⟨none, none⟩, ⟨"2026-10-10", "T", "r"⟩⟩)
        ⟨[], initialRateLimit⟩).result = Except.ok ⟨"2026-10-10", "T", "r"⟩ ∧
    cacheGet (fetchAPOD none "2026-10-11"
        (UpstreamResult.ok ⟨⟨none, none⟩, ⟨"2026-10-10", "T", "r"⟩⟩)
        ⟨[], initialRateLimit⟩).state.cache "2026-10-11" =
      some ⟨"2026-10-10", "T", "r"⟩ ∧
    cacheGet (fetchAPOD none "2026-10-11"
        (UpstreamResult.ok ⟨⟨none, none⟩, ⟨"2026-10-10", "T", "r"⟩⟩)
        ⟨[], initialRateLimit⟩).state.cache "2026-10-10" =
      some ⟨"2026-10-10", "T", "r"⟩ ∧
    fetchAPOD (some "2026-10-11") "2026-10-11"
        (UpstreamResult.err ⟨none, none, "down"⟩)
        (fetchAPOD none "2026-10-11"
          (UpstreamResult.ok ⟨⟨none, none⟩, ⟨"2026-10-10", "T", "r"⟩⟩)
          ⟨[], initialRateLimit⟩).state =
      ⟨Except.ok ⟨"2026-10-10", "T", "r"⟩,
       (fetchAPOD none "2026-10-11"
         (UpstreamResult.ok ⟨⟨none, none⟩, ⟨"2026-10-10", "T", "r"⟩⟩)
         ⟨[], initialRateLimit⟩).state, false⟩ :=
  today_skew_double_store "2026-10-11" ⟨⟨none, none⟩, ⟨"2026-10-10", "T", "r"⟩⟩
    ⟨[], initialRateLimit⟩ (UpstreamResult.err ⟨none, none, "down"⟩)
    (by decide) (by decide)

/-- C5 (amended): for every input that passes the format check and parses to
a valid calendar date, the validator accepts exactly when the parsed UTC
midnight timestamp lies within the closed interval from 1995-06-16 to the
current instant, and rejects with a range error otherwise; validation is a
pure function of the input and the clock (no network or cache access by
construction).  The original claim's "rejects as RANGE_ERROR otherwise" over
all format-passing inputs fails for calendar-invalid strings, which parse to
Invalid Date and are accepted (see the counterexample). -/
theorem range_check_on_valid_parse (s : String) (nowMs t : Int)
    (hm : matchesDateFormat s = true) (hp : parseDateJS s = some t) :
    (validateDate s nowMs = ValidationResult.ok ↔ minDateMs ≤ t ∧ t ≤ nowMs) ∧
    (validateDate s nowMs = ValidationResult.rangeError ↔
      (t < minDateMs ∨ nowMs < t)) := by
  have hs : s ≠ "" := by
    intro h0
    rw [h0] at hm
    exact absurd hm (by decide)
  unfold validateDate
  rw [hp]
  simp only [hs, hm]
  simp
  omega

/-- Witness for C5: 2000-01-01 is accepted and 1990-01-01 is a range error at
a clock instant in 2026. -/
theorem range_check_witness :
    validateDate "2000-01-01" 1791720000000 = ValidationResult.ok ∧
    validateDate "1990-01-01" 1791720000000 = ValidationResult.rangeError := by
  constructor
  · exact ((range_check_on_valid_parse "2000-01-01" 1791720000000 946684800000
      (by decide) (by decide)).1).mpr (by decide)
  · exact ((range_check_on_valid_parse "1990-01-01" 1791720000000 631152000000
      (by decide) (by decide)).2).mpr (by decide)

/-- Counterexample to C5 as stated: "2024-02-30" passes the format check, has
no valid parsed date (Invalid Date), yet the validator accepts it instead of
rejecting it with a range error. -/
theorem range_counterexample :
    matchesDateFormat "2024-02-30" = true ∧
    parseDateJS "2024-02-30" = none ∧
    validateDate "2024-02-30" 1791720000000 = ValidationResult.ok := by
  refine ⟨by decide, by decide, by decide⟩

/-- C6 (amended): for failures classified as OTHER (no 429, no status at
least 500, no `ECONNABORTED` code), the classified user message is the
caller-supplied default suffixed with the raw error text, and a structured
error-body `msg` field takes precedence over it in the displayed message.
The original claim's assertion that this precedence belongs only to the OTHER
class is refuted by the counterexample: the `msg` fallback is applied at
render time after classification, hence in every class. -/
theorem other_class_message (e : JsError) (c : String)
    (h429 : e.response.map ErrResponse.status ≠ some 429)
    (h500 : statusAtLeast500 e = false)
    (hcode : e.code ≠ some "ECONNABORTED") :
    getErrorMessage e c = c ++ " " ++ e.message ∧
    (e.response.bind ErrResponse.dataMsg = none →
       handleErrorDisplayed e c = c ++ " " ++ e.message) ∧
    (∀ m, e.response.bind ErrResponse.dataMsg = some m → m ≠ "" →
       handleErrorDisplayed e c = m) := by
  have hmsg : getErrorMessage e c = c ++ " " ++ e.message := by
    unfold getErrorMessage
    simp [h429, h500, hcode]
  refine ⟨hmsg, ?_, ?_⟩
  · intro hm
    unfold handleErrorDisplayed jsOrElse
    simp [hm, hmsg]
  · intro m hm hne
    unfold handleErrorDisplayed jsOrElse
    simp [hm, hne]

/-- Witness for C6 at a concrete 404 failure without a body message. -/
theorem other_class_witness :
    getErrorMessage ⟨some ⟨404, none⟩, none, "Request failed with status code 404"⟩
      "Failed." = "Failed." ++ " " ++ "Request failed with status code 404" ∧
    handleErrorDisplayed ⟨some ⟨404, none⟩, none, "Request failed with status code 404"⟩
      "Failed." = "Failed." ++ " " ++ "Request failed with status code 404" :=
  ⟨(other_class_message ⟨some ⟨404, none⟩, none, "Request failed with status code 404"⟩
      "Failed." (by decide) (by decide) (by decide)).1,
   (other_class_message ⟨some ⟨404, none⟩, none, "Request failed with status code 404"⟩
      "Failed." (by decide) (by decide) (by decide)).2.1 rfl⟩

/-- Counterexample to C6 as stated: a 503 failure — classified SERVER_ERROR,
not OTHER — whose body carries a `msg` field is displayed as that body
message, so the body-message precedence is not confined to the OTHER class. -/
theorem precedence_not_only_other :
    handleErrorDisplayed ⟨some ⟨503, some "SERVICE_UNAVAILABLE"⟩, none, "x"⟩
      "Default." = "SERVICE_UNAVAILABLE" ∧
    statusAtLeast500 ⟨some ⟨503, some "SERVICE_UNAVAILABLE"⟩, none, "x"⟩ = true ∧
    "SERVICE_UNAVAILABLE" ≠ serverErrorMessage := by
  refine ⟨by decide, by decide, by decide⟩

/-- C7: after a successful call whose response carries the headers
`x-ratelimit-limit: 1000` and `x-ratelimit-remaining: 950`, the snapshot
reports limit 1000 and remaining 950; a field whose header is absent is left
unchanged, and `resetTime` is never touched. -/
theorem rateLimit_snapshot_header_update (rl : RateLimitState)
    (h1 h2 : Option String) :
    ((updateRateLimitFromHeaders ⟨some "1000", some "950"⟩ rl).limit = some 1000 ∧
     (updateRateLimitFromHeaders ⟨some "1000", some "950"⟩ rl).remaining = some 950) ∧
    (updateRateLimitFromHeaders ⟨none, h2⟩ rl).limit = rl.limit ∧
    (updateRateLimitFromHeaders ⟨h1, none⟩ rl).remaining = rl.remaining ∧
    (updateRateLimitFromHeaders ⟨h1, h2⟩ rl).resetTime = rl.resetTime := by
  refine ⟨⟨?_, ?_⟩, ?_, ?_, ?_⟩
  · simp [updateRateLimitFromHeaders, strTruthy]
    decide
  · simp [updateRateLimitFromHeaders, strTruthy]
    decide
  · unfold updateRateLimitFromHeaders
    simp [strTruthy]
    split <;> rfl
  · unfold updateRateLimitFromHeaders
    simp [strTruthy]
    split <;> rfl
  · unfold updateRateLimitFromHeaders
    split <;> split <;> rfl

/-- C8: for any uniform random fraction in the unit interval and any clock
instant not before the first APOD, the random-date generator returns the ISO
rendering of a day lying between 1995-06-16 and the current UTC day,
inclusive. -/
theorem randomDate_within_archive (nowMs : Int) (q : ℚ)
    (h0 : 0 ≤ q) (h1 : q < 1) (h2 : minDateMs ≤ nowMs) :
    ∃ d : Int, randomDateString nowMs q = isoOfDays d ∧
      firstApodDays ≤ d ∧ d ≤ nowMs / msPerDay := by
  refine ⟨randomDateDays nowMs q, rfl, ?_, ?_⟩
  · unfold randomDateDays
    have hfloor : 0 ≤ Int.floor (q * ((nowMs - minDateMs : Int) : ℚ)) := by
      apply Int.floor_nonneg.mpr
      apply mul_nonneg h0
      exact_mod_cast sub_nonneg.mpr h2
    have hmin : minDateMs ≤ minDateMs + Int.floor (q * ((nowMs - minDateMs : Int) : ℚ)) := by
      omega
    have hdiv := Int.ediv_le_ediv (by decide : (0:Int) < msPerDay) hmin
    have hexact : minDateMs / msPerDay = firstApodDays := by decide
    rw [hexact] at hdiv
    exact hdiv
  · unfold randomDateDays
    have hle : Int.floor (q * ((nowMs - minDateMs : Int) : ℚ)) ≤ nowMs - minDateMs := by
      have hq : q * ((nowMs - minDateMs : Int) : ℚ) ≤ ((nowMs - minDateMs : Int) : ℚ) := by
        apply mul_le_of_le_one_left
        · exact_mod_cast sub_nonneg.mpr h2
        · exact h1.le
      calc Int.floor (q * ((nowMs - minDateMs : Int) : ℚ))
          ≤ Int.floor ((nowMs - minDateMs : Int) : ℚ) := Int.floor_mono hq
        _ = nowMs - minDateMs := Int.floor_intCast _
    have : minDateMs + Int.floor (q * ((nowMs - minDateMs : Int) : ℚ)) ≤ nowMs := by omega
    exact Int.ediv_le_ediv (by decide : (0:Int) < msPerDay) this

/-- Witness for C8 at fraction one half and a 2026 clock instant. -/
theorem randomDate_witness :
    ∃ d : Int, randomDateString 1791720000000 (1/2 : ℚ) = isoOfDays d ∧
      firstApodDays ≤ d ∧ d ≤ 1791720000000 / msPerDay :=
  randomDate_within_archive 1791720000000 (1/2 : ℚ)
    (by norm_num) (by norm_num) (by decide)

/-- C9 (amended): every `fetchAPOD` invocation preserves distinctness of the
cache keys (at most one entry per date key), and preserves every existing
entry unchanged provided any successful response whose reported date names an
already-cached key carries the identical record.  Without that consistency
assumption the original claim fails: a fetch for one key can overwrite a
different, already-cached key with a different record (see the
counterexample). -/
theorem cache_unique_keys_and_stability (date : Option String)
    (todayStr : String) (u : UpstreamResult) (st : ServerState) :
    ((st.cache.map Prod.fst).Nodup →
       (((fetchAPOD date todayStr u st).state.cache).map Prod.fst).Nodup) ∧
    ((∀ resp, u = UpstreamResult.ok resp →
        ∀ w, cacheGet st.cache resp.data.date = some w → w = resp.data) →
      ∀ k v, cacheGet st.cache k = some v →
        cacheGet (fetchAPOD date todayStr u st).state.cache k = some v) := by
  unfold fetchAPOD
  set dateKey := effectiveKey date todayStr with hdk
  match hget : cacheGet st.cache dateKey with
  | some rec =>
    simp only [hget]
    exact ⟨fun h => h, fun _ k v h => h⟩
  | none =>
    simp only [hget]
    match u with
    | UpstreamResult.err e =>
      exact ⟨fun h => h, fun _ k v h => h⟩
    | UpstreamResult.ok resp =>
      simp only []
      by_cases hcond : strTruthy date = false ∧ resp.data.date ≠ dateKey
      · simp only [if_pos hcond]
        constructor
        · intro hnd
          exact cacheSet_nodup _ _ _ (cacheSet_nodup _ _ _ hnd)
        · intro hcons k v h
          have h1 : cacheGet (cacheSet st.cache resp.data.date resp.data) k = some v :=
            cacheGet_cacheSet_preserve _ _ _ (hcons resp rfl) k v h
          apply cacheGet_cacheSet_preserve
          · intro w hw
            rw [cacheGet_cacheSet_ne _ _ _ _ (Ne.symm hcond.2)] at hw
            rw [hget] at hw
            exact absurd hw (by simp)
          · exact h1
      · simp only [if_neg hcond]
        constructor
        · intro hnd
          exact cacheSet_nodup _ _ _ hnd
        · intro hcons k v h
          exact cacheGet_cacheSet_preserve _ _ _ (hcons resp rfl) k v h

/-- Witness for C9: fetching a missing key with a consistent upstream
response keeps the key set duplicate-free and leaves the pre-existing entry
intact. -/
theorem cache_stability_witness :
    ((([("2024-01-01", (⟨"2024-01-01", "A", ""⟩ : ApodRecord))] :
        List (String × ApodRecord)).map Prod.fst).Nodup →
      ((((fetchAPOD (some "2024-01-02") "2026-10-11"
          (UpstreamResult.ok ⟨⟨none, none⟩, ⟨"2024-01-02", "B", ""⟩⟩)
          ⟨[("2024-01-01", ⟨"2024-01-01", "A", ""⟩)], initialRateLimit⟩).state.cache).map
          Prod.fst).Nodup)) ∧
    cacheGet (fetchAPOD (some "2024-01-02") "2026-10-11"
        (UpstreamResult.ok ⟨⟨none, none⟩, ⟨"2024-01-02", "B", ""⟩⟩)
        ⟨[("2024-01-01", ⟨"2024-01-01", "A", ""⟩)], initialRateLimit⟩).state.cache
      "2024-01-01" = some ⟨"2024-01-01", "A", ""⟩ := by
  have h := cache_unique_keys_and_stability (some "2024-01-02") "2026-10-11"
    (UpstreamResult.ok ⟨⟨none, none⟩, ⟨"2024-01-02", "B", ""⟩⟩)
    ⟨[("2024-01-01", ⟨"2024-01-01", "A", ""⟩)], initialRateLimit⟩
  refine ⟨h.1, ?_⟩
  apply h.2
  · intro resp hresp w hw
    cases hresp
    simp [cacheGet] at hw
  · decide

/-- Counterexample to C9 as stated: the cache holds a record under
2020-01-02; a fetch for the different key 2020-01-01 receives a response
whose reported date is 2020-01-02 with different content, and the stored
entry is replaced by that different record. -/
theorem cache_overwrite_counterexample :
    cacheGet ((fetchAPOD (some "2020-01-01") "2026-10-11"
        (UpstreamResult.ok ⟨⟨none, none⟩, ⟨"2020-01-02", "Different", ""⟩⟩)
        ⟨[("2020-01-02", ⟨"2020-01-02", "Original", ""⟩)], initialRateLimit⟩).state.cache)
      "2020-01-02" = some ⟨"2020-01-02", "Different", ""⟩ ∧
    cacheGet ([("2020-01-02", (⟨"2020-01-02", "Original", ""⟩ : ApodRecord))])
      "2020-01-02" = some ⟨"2020-01-02", "Original", ""⟩ ∧
    (⟨"2020-01-02", "Original", ""⟩ : ApodRecord) ≠ ⟨"2020-01-02", "Different", ""⟩ := by
  refine ⟨by decide, by decide, by decide⟩

/-- C10: when the outbound call fails, `fetchAPOD` propagates the error to
its caller and leaves both the cache and the rate-limit snapshot exactly as
they were — all mutations of shared state occur only after the outbound call
has succeeded. -/
theorem fetch_error_leaves_state_unchanged (date : Option String)
    (todayStr : String) (e : JsError) (st : ServerState)
    (h : cacheGet st.cache (effectiveKey date todayStr) = none) :
    fetchAPOD date todayStr (UpstreamResult.err e) st =
      ⟨Except.error e, st, true⟩ := by
  unfold fetchAPOD
  simp [h]

/-- Witness for C10 at an empty cache and a timeout error. -/
theorem fetch_error_witness :
    fetchAPOD (some "2024-01-01") "2026-10-11"
      (UpstreamResult.err ⟨none, some "ECONNABORTED", "timeout of 25000ms exceeded"⟩)
      ⟨[], initialRateLimit⟩ =
    ⟨Except.error ⟨none, some "ECONNABORTED", "timeout of 25000ms exceeded"⟩,
     ⟨[], initialRateLimit⟩, true⟩ :=
  fetch_error_leaves_state_unchanged (some "2024-01-01") "2026-10-11"
    ⟨none, some "ECONNABORTED", "timeout of 25000ms exceeded"⟩
    ⟨[], initialRateLimit⟩ (by decide)

end Apod
